import Mathlib

/-!
Verification development for the media-catalog bot (`src/bot.py`).

The file embeds, as executable Lean definitions, the parts of the program the
claims are about: the text-processing pipeline (`clean_filename`,
`extract_quality`, `extract_audio`, `extract_metadata`, `determine_category`),
the MongoDB `files` collection with its unique indexes (`_id` primary key and
the unique index on `file_unique_id` created in `init_db`), the live
channel-post ingestion handler (`channel_post_handler`), the backfill loop
(`index_channel_task`), and the query/pagination layer (`render_file_list`,
`render_series_filter_list`, the `ser_sel_*` callback).

Conventions of the embedding:
* Python strings are `String`, chat ids are `Int`, sizes and counters are `Nat`.
* Python regular expressions are transcribed as explicit scanners over
  `List Char` with Python semantics: leftmost match, alternatives tried in
  order, greedy bounded quantifiers.  `\s`, `\d`, `\w` are modelled by their
  ASCII classes.
* `datetime.now()` is an external clock value, passed in as a `Nat` parameter.
* Python's built-in `hash` on strings is salted per process
  (PYTHONHASHSEED randomization); it is modelled as a per-run parameter
  `pyhash : String → Int`.  One process run corresponds to one value of
  `pyhash`.
* The Mongo store is a list of documents; `insert_one` fails (raising
  `DuplicateKeyError`) exactly when a unique index would be violated:
  the `_id` primary key or the unique `file_unique_id` index.
-/

/-! ### Character classes (ASCII models of the regex classes used in bot.py) -/

/-- ASCII model of the regex class `\s`. -/
def isSpaceCh (c : Char) : Bool :=
  c == ' ' || c == '\t' || c == '\n' || c == '\r' || c == '\x0b' || c == '\x0c'

/-- ASCII model of the regex class `\w`. -/
def isWordCh (c : Char) : Bool :=
  c.isAlpha || c.isDigit || c == '_'

/-- Does the pattern (first list) start the text (second list)?  Used for
literal pieces of the regexes. -/
def listStarts : List Char → List Char → Bool
  | [], _ => true
  | _ :: _, [] => false
  | p :: ps, c :: cs => p == c && listStarts ps cs

/-- Case-insensitive `listStarts`: the pattern is given lowercased, the text is
lowercased before comparison (Python `re.IGNORECASE` on ASCII). -/
def lowerStarts (p : List Char) (cs : List Char) : Bool :=
  listStarts p (cs.map Char.toLower)

/-- Does the text contain the pattern as a contiguous subsequence?
Models Python `needle in hay` on strings. -/
def containsSeq (needle : List Char) : List Char → Bool
  | [] => needle.isEmpty
  | c :: cs => listStarts needle (c :: cs) || containsSeq needle cs

/-- Model of Python `q.lower() in hay.lower()` (lowercasing character-wise). -/
def lowerContains (needle : String) (hay : String) : Bool :=
  containsSeq (needle.toList.map Char.toLower) (hay.toList.map Char.toLower)

/-! ### A small `re.sub` engine

`reSubAll` scans the text left to right; at every position it asks the matcher
for a match starting there (the matcher encodes one compiled pattern: it
returns the length matched and the replacement).  On a match the replacement is
emitted and the scan resumes after the matched characters; otherwise the
character is kept.  This is exactly `re.sub`'s non-overlapping leftmost scan
for patterns that cannot match the empty string.  The fuel argument (the length
of the text) keeps the recursion structural, so terms reduce in the kernel. -/

def reSubAll (m : List Char → Option (Nat × List Char)) : Nat → List Char → List Char
  | 0, cs => cs
  | _ + 1, [] => []
  | fuel + 1, c :: rest =>
    match m (c :: rest) with
    | some (n, repl) => repl ++ reSubAll m fuel ((c :: rest).drop n)
    | none => c :: reSubAll m fuel rest

/-- Apply one substitution pass over the whole text (all matched characters are
consumed, so `cs.length` fuel always suffices). -/
def reSub (m : List Char → Option (Nat × List Char)) (cs : List Char) : List Char :=
  reSubAll m cs.length cs

/-! ### The matchers for the five `re.sub` calls of `clean_filename` -/

/-- Matcher for `@\w+` (remove). -/
def matchHandleAt : List Char → Option (Nat × List Char)
  | '@' :: rest =>
    let k := (rest.takeWhile isWordCh).length
    if k == 0 then none else some (1 + k, [])
  | _ => none

/-- Helper: a literal, then `\S+` (one or more non-space characters, greedy). -/
def matchAfterLit (lit : List Char) (cs : List Char) : Option (Nat × List Char) :=
  if listStarts lit cs then
    let k := ((cs.drop lit.length).takeWhile (fun c => !isSpaceCh c)).length
    if k == 0 then none else some (lit.length + k, [])
  else none

/-- Matcher for `(https?://\S+|www\.\S+|t\.me/\S+)` (remove); the `s?` in
`https?` is greedy, so `https://` is tried before `http://`. -/
def matchUrlAt (cs : List Char) : Option (Nat × List Char) :=
  matchAfterLit "https://".toList cs <|> matchAfterLit "http://".toList cs <|>
  matchAfterLit "www.".toList cs <|> matchAfterLit "t.me/".toList cs

/-- The literal alternatives of the quality/codec/container tag pattern of
`clean_filename`, lowercased, in the order they appear in the regex. -/
def qualityTagList : List (List Char) :=
  ["1080p".toList, "720p".toList, "480p".toList, "bluray".toList, "web-dl".toList,
   "x264".toList, "x265".toList, "hevc".toList, "aac".toList, "ddp5.1".toList,
   ".mkv".toList, ".mp4".toList, ".avi".toList]

/-- Matcher for the case-insensitive tag alternation
`(?i)(1080p|720p|480p|BluRay|WEB-DL|x264|x265|HEVC|AAC|DDP5\.1|\.mkv|\.mp4|\.avi)`
(remove); alternatives are tried in regex order. -/
def matchTagAt (cs : List Char) : Option (Nat × List Char) :=
  (qualityTagList.find? (fun t => lowerStarts t cs)).map (fun t => (t.length, ([] : List Char)))

/-- Matcher for `[._\-]` (replace by a space). -/
def matchSepAt : List Char → Option (Nat × List Char)
  | c :: _ => if c == '.' || c == '_' || c == '-' then some (1, [' ']) else none
  | [] => none

/-- Matcher for `[\[\]\(\)]` (remove). -/
def matchBracketAt : List Char → Option (Nat × List Char)
  | c :: _ => if c == '[' || c == ']' || c == '(' || c == ')' then some (1, []) else none
  | [] => none

/-- Matcher for `\s+` (replace the whole whitespace run by one space). -/
def matchSpacesAt (cs : List Char) : Option (Nat × List Char) :=
  let k := (cs.takeWhile isSpaceCh).length
  if k == 0 then none else some (k, [' '])

/-- Python `str.strip()` restricted to whitespace. -/
def stripSpaces (cs : List Char) : List Char :=
  ((cs.dropWhile isSpaceCh).reverse.dropWhile isSpaceCh).reverse

/-- Embedding of `clean_filename` (bot.py lines 187-202): empty input yields the
sentinel; otherwise the five `re.sub` passes run in source order and the result
is stripped. -/
def clean_filename (text : String) : String :=
  if text == "" then "Unknown File"
  else
    let cs := text.toList
    let cs := reSub matchHandleAt cs
    let cs := reSub matchUrlAt cs
    let cs := reSub matchTagAt cs
    let cs := reSub matchSepAt cs
    let cs := reSub matchBracketAt cs
    let cs := reSub matchSpacesAt cs
    (stripSpaces cs).asString

/-- Embedding of `extract_quality` (bot.py lines 204-210): first match in the
fixed priority order, case-insensitive substring test. -/
def extract_quality (filename : String) : String :=
  if lowerContains "2160p" filename then "2160p"
  else if lowerContains "1080p" filename then "1080p"
  else if lowerContains "720p" filename then "720p"
  else if lowerContains "480p" filename then "480p"
  else if lowerContains "360p" filename then "360p"
  else "Unknown"

/-- Embedding of `extract_audio` (bot.py lines 212-218). -/
def extract_audio (filename : String) : String :=
  if lowerContains "AAC" filename then "AAC"
  else if lowerContains "DDP5.1" filename then "DDP5.1"
  else if lowerContains "DD5.1" filename then "DD5.1"
  else if lowerContains "AC3" filename then "AC3"
  else if lowerContains "DTS" filename then "DTS"
  else if lowerContains "FLAC" filename then "FLAC"
  else "Unknown"

/-! ### `extract_metadata`: the season/episode regexes

Season pattern: `(?:s|season)\s?(\d{1,2})`, episode pattern:
`(?:e|episode|ep)\s?(\d{1,3})`, both `re.IGNORECASE`, found with `re.search`
(leftmost match).  A matcher below returns the numeric value of the digit group
when the pattern matches at the head of the given suffix. -/

/-- Numeric value of a digit run (`int()` of the matched group). -/
def digitsVal (ds : List Char) : Nat :=
  ds.foldl (fun a c => a * 10 + (c.toNat - 48)) 0

/-- Greedy `\d{1,maxN}` at the head of the text: at least one digit, at most
`maxN`, returning the value of the digits taken. -/
def matchDigits (maxN : Nat) (cs : List Char) : Option Nat :=
  let ds := (cs.takeWhile Char.isDigit).take maxN
  if ds.isEmpty then none else some (digitsVal ds)

/-- Greedy `\s?` then `\d{1,maxN}`: one optional whitespace character, then the
digits.  (If the optional whitespace is taken but no digit follows, the
backtracked alternative without the whitespace fails as well, since a
whitespace character is not a digit.) -/
def matchSpaceDigits (maxN : Nat) : List Char → Option Nat
  | [] => none
  | c :: rest => if isSpaceCh c then matchDigits maxN rest else matchDigits maxN (c :: rest)

/-- The season pattern `(?:s|season)\s?(\d{1,2})` at the head of the text:
the `s` alternative is tried before `season`, case-insensitively. -/
def matchSeasonAt (cs : List Char) : Option Nat :=
  (match cs with
   | c :: rest => if c.toLower == 's' then matchSpaceDigits 2 rest else none
   | [] => none) <|>
  (if lowerStarts "season".toList cs then matchSpaceDigits 2 (cs.drop 6) else none)

/-- The episode pattern `(?:e|episode|ep)\s?(\d{1,3})` at the head of the text:
alternatives `e`, `episode`, `ep` in regex order, case-insensitively. -/
def matchEpisodeAt (cs : List Char) : Option Nat :=
  (match cs with
   | c :: rest => if c.toLower == 'e' then matchSpaceDigits 3 rest else none
   | [] => none) <|>
  (if lowerStarts "episode".toList cs then matchSpaceDigits 3 (cs.drop 7) else none) <|>
  (if lowerStarts "ep".toList cs then matchSpaceDigits 3 (cs.drop 2) else none)

/-- `re.search`: scan the suffixes left to right and return the first position
where the matcher succeeds. -/
def findFirst (m : List Char → Option Nat) : List Char → Option Nat
  | [] => m []
  | c :: rest =>
    match m (c :: rest) with
    | some v => some v
    | none => findFirst m rest

/-- Embedding of `extract_metadata` (bot.py lines 220-231): leftmost match of
each pattern, each component defaulting to 0 when its pattern has no match. -/
def extract_metadata (text : String) : Nat × Nat :=
  ((findFirst matchSeasonAt text.toList).getD 0,
   (findFirst matchEpisodeAt text.toList).getD 0)

/-! ### `determine_category` -/

/-- The three configured source channels (environment configuration). -/
structure Config where
  ch_sinhala_sub : Int
  ch_pc_game : Int
  ch_movie_series : Int

/-- One alternative of `(S\d+|Season|E\d+|Episode)` at the head of the text,
case-insensitively. -/
def seriesIndicatorAt (cs : List Char) : Bool :=
  (match cs with
   | c :: d :: _ => (c.toLower == 's' || c.toLower == 'e') && d.isDigit
   | _ => false) ||
  lowerStarts "season".toList cs || lowerStarts "episode".toList cs

/-- `re.search` of the Series indicator pattern: some suffix matches. -/
def seriesIndicator (s : String) : Bool :=
  s.toList.tails.any seriesIndicatorAt

/-- Embedding of `determine_category` (bot.py lines 233-243). -/
def determine_category (cfg : Config) (chat_id : Int) (file_name : String) : String :=
  if chat_id == cfg.ch_pc_game then "Games"
  else if chat_id == cfg.ch_sinhala_sub then "SinhalaSub"
  else if chat_id == cfg.ch_movie_series then
    (if seriesIndicator file_name then "Series" else "Movies")
  else "Others"

/-! ### The `files` collection -/

/-- One document of the `db.files` collection, as built at bot.py lines
925-940 (live path) and 1146-1161 (backfill path).  The `indexed_date` field
is the external clock value. -/
structure FileDoc where
  _id : String
  file_id : String
  file_unique_id : String
  file_name : String
  file_size : Nat
  file_type : String
  category : String
  season : Nat
  episode : Nat
  quality : String
  audio : String
  message_id : Nat
  channel_id : Int
  indexed_date : Nat
deriving DecidableEq, Repr

/-- The `files` collection. -/
abbrev Store := List FileDoc

/-- `db.files.find_one({"file_unique_id": uid})`. -/
def files_find_uid (s : Store) (uid : String) : Option FileDoc :=
  s.find? (fun r => r.file_unique_id == uid)

/-- `db.files.insert_one(d)`: raises `DuplicateKeyError` (modelled as
`Except.error ()`) when a unique index would be violated — the `_id` primary
key or the unique index on `file_unique_id` created in `init_db`. -/
def insert_one (s : Store) (d : FileDoc) : Except Unit Store :=
  if s.any (fun r => r.file_unique_id == d.file_unique_id || r._id == d._id) then
    .error ()
  else
    .ok (s ++ [d])

/-- The record id expression `str(hash(unique_id))[:16]`, identical at both
code sites (bot.py line 926 and line 1147); `pyhash` is the process run's
salted built-in string hash. -/
def compute_file_id (pyhash : String → Int) (unique_id : String) : String :=
  String.mk ((toString (pyhash unique_id)).toList.take 16)

/-- Python `a or b` for an optional string (`None` and `""` are falsy). -/
def py_or (a : Option String) (b : String) : String :=
  match a with
  | some s => if s == "" then b else s
  | none => b

/-! ### Live ingestion: `channel_post_handler` (bot.py lines 888-953) -/

/-- A Telegram media attachment (document or video) as the handlers read it. -/
structure Media where
  file_id : String
  file_unique_id : String
  file_name : Option String
  file_size : Nat
deriving DecidableEq, Repr

/-- An inbound channel post as the live handler reads it. -/
structure ChannelPost where
  chat_id : Int
  message_id : Nat
  document : Option Media
  video : Option Media
  caption : Option String
deriving DecidableEq, Repr

/-- The observable outcome of one live-handler call (the Python function
returns nothing; the outcome is distinguished by its effect and logging). -/
inductive LiveOutcome where
  | skippedChannel
  | nonMedia
  | duplicate
  | inserted
  | conflictSwallowed
deriving DecidableEq, Repr

/-- The metadata processing and `file_doc` dict literal of the live path
(bot.py lines 917-940): `clean_name`, `category`, season/episode, quality and
audio are computed exactly as in the source, then the dict is built. -/
def live_file_doc (cfg : Config) (pyhash : String → Int) (now : Nat) (chat_id : Int)
    (message_id : Nat) (fid uid fname : String) (fsize : Nat) (ftype : String) : FileDoc :=
  let clean_name := clean_filename fname
  let category := determine_category cfg chat_id clean_name
  let se := extract_metadata fname
  { _id := compute_file_id pyhash uid
    file_id := fid
    file_unique_id := uid
    file_name := clean_name
    file_size := fsize
    file_type := ftype
    category := category
    season := se.1
    episode := se.2
    quality := extract_quality fname
    audio := extract_audio fname
    message_id := message_id
    channel_id := chat_id
    indexed_date := now }

/-- The `try: insert_one … except DuplicateKeyError: pass` of the live path
(bot.py lines 942-951): a duplicate-key conflict is swallowed, leaving the
store unchanged; the optional `post_to_update_channel` call on success is an
external side effect with no store access. -/
def live_insert_step (s : Store) (d : FileDoc) : LiveOutcome × Store :=
  match insert_one s d with
  | .ok s2 => (.inserted, s2)
  | .error _ => (.conflictSwallowed, s)

/-- Embedding of `channel_post_handler` (bot.py lines 888-953): source-channel
gate, media extraction with the Python `or` defaulting, dedup lookup on
`file_unique_id`, metadata processing, guarded insert. -/
def channel_post_handler (cfg : Config) (pyhash : String → Int) (now : Nat)
    (s : Store) (msg : ChannelPost) : LiveOutcome × Store :=
  let chat_id := msg.chat_id
  if !(chat_id == cfg.ch_sinhala_sub || chat_id == cfg.ch_pc_game ||
       chat_id == cfg.ch_movie_series) then
    (.skippedChannel, s)
  else
    let media? : Option (String × String × String × Nat × String) :=
      match msg.document with
      | some d => some (d.file_id, d.file_unique_id, py_or d.file_name "Document",
                        d.file_size, "doc")
      | none =>
        match msg.video with
        | some v => some (v.file_id, v.file_unique_id,
                          py_or v.file_name (py_or msg.caption "Video"), v.file_size, "video")
        | none => none
    match media? with
    | none => (.nonMedia, s)
    | some (fid, uid, fname, fsize, ftype) =>
      if (files_find_uid s uid).isSome then
        (.duplicate, s)
      else
        live_insert_step s
          (live_file_doc cfg pyhash now chat_id msg.message_id fid uid fname fsize ftype)

/-! ### The query layer: `render_file_list`, `render_series_filter_list`,
and the `ser_sel_*` facet-selection callback -/

/-- Model of the Mongo filter `{"file_name": {"$regex": q, "$options": "i"}}`
for the metacharacter-free free-text queries the bot receives: an unanchored
case-insensitive regex match is a case-insensitive substring test. -/
def nameMatches (q : String) (file_name : String) : Bool :=
  containsSeq (q.toList.map Char.toLower) (file_name.toList.map Char.toLower)

/-- Python truthiness of an optional integer filter (`if s_filter:`):
`None` and `0` are falsy. -/
def truthyNat : Option Nat → Bool
  | some v => v != 0
  | none => false

/-- The `match_query` dict of `render_file_list` (bot.py lines 542-555) as a
predicate on documents: free-text match and category always; season/episode
equality only when the category is "Series" and the filter value is truthy. -/
def match_query (query_text category : String) (sf ef : Option Nat) (f : FileDoc) : Bool :=
  nameMatches query_text f.file_name && f.category == category &&
  (category != "Series" ||
    ((!truthyNat sf || f.season == sf.getD 0) && (!truthyNat ef || f.episode == ef.getD 0)))

/-- Byte order on ASCII strings (how Mongo compares the `file_name` key):
lexicographic on the character codes. -/
def charListLe : List Char → List Char → Bool
  | [], _ => true
  | _ :: _, [] => false
  | a :: as, b :: bs => if a.toNat == b.toNat then charListLe as bs else a.toNat < b.toNat

/-- The compound sort key `[("season", 1), ("episode", 1), ("file_name", 1)]`
of `render_file_list` (bot.py lines 558-560), as a total preorder. -/
def docLe (a b : FileDoc) : Bool :=
  if a.season != b.season then a.season < b.season
  else if a.episode != b.episode then a.episode < b.episode
  else charListLe a.file_name.toList b.file_name.toList

/-- `docLe` as a relation, for the sortedness statements. -/
def docR (a b : FileDoc) : Prop := docLe a b = true

instance : DecidableRel docR := fun a b => inferInstanceAs (Decidable (docLe a b = true))

/-- What one `render_file_list` call computes and shows: the page of documents,
the total count, and whether the Back / Next buttons are offered
(bot.py lines 537-618). -/
structure FileListPage where
  files : List FileDoc
  total : Nat
  has_prev : Bool
  has_next : Bool
deriving DecidableEq, Repr

/-- Embedding of the query part of `render_file_list` (bot.py lines 537-610):
`limit = 10`, `skip = page * limit`, `count_documents` on the match query,
`find(...).sort(...).skip(skip).limit(limit)`, Back button iff `page > 0`,
Next button iff `skip + limit < total`.  The sorted scan is modelled as a
sorted permutation of the matching documents. -/
def render_file_list (s : Store) (category query_text : String)
    (sf ef : Option Nat) (page : Nat) : FileListPage :=
  let limit := 10
  let skip := page * limit
  let matching := s.filter (match_query query_text category sf ef)
  let total := matching.length
  let files := ((matching.insertionSort docR).drop skip).take limit
  { files := files
    total := total
    has_prev := decide (page > 0)
    has_next := decide (skip + limit < total) }

/-- Embedding of the aggregation pipeline of `render_series_filter_list`
(bot.py lines 626-637): match `file_name` regex, category "Series" and
`col > 0`; group by the column (distinct values); sort ascending. -/
def facet_values (s : Store) (filter_type query_text : String) : List Nat :=
  let col : FileDoc → Nat := if filter_type == "Season" then (·.season) else (·.episode)
  let matching := s.filter (fun f =>
    nameMatches query_text f.file_name && f.category == "Series" && decide (col f > 0))
  ((matching.map col).dedup).insertionSort (· ≤ ·)

/-- The page slice and navigation of `render_series_filter_list`
(bot.py lines 638-661): same offset pagination rule as the file list. -/
structure FacetPage where
  values : List Nat
  total : Nat
  has_prev : Bool
  has_next : Bool
deriving DecidableEq, Repr

/-- Embedding of `render_series_filter_list` (bot.py lines 620-668). -/
def render_series_filter_list (s : Store) (filter_type query_text : String)
    (page : Nat) : FacetPage :=
  let limit := 10
  let skip := page * limit
  let all_vals := facet_values s filter_type query_text
  let total := all_vals.length
  { values := (all_vals.drop skip).take limit
    total := total
    has_prev := decide (page > 0)
    has_next := decide (skip + limit < total) }

/-- The per-session filter state kept in `context.user_data`
(`filter_season`, `filter_episode`). -/
structure UserData where
  filter_season : Option Nat
  filter_episode : Option Nat
deriving DecidableEq, Repr

/-- Embedding of the `ser_sel_` branch of `callback_handler`
(bot.py lines 512-521): selecting a season sets the season filter and resets
the episode filter to `None`; selecting an episode sets only the episode
filter; any other tag leaves the state unchanged. -/
def ser_sel (ud : UserData) (f_type : String) (val : Nat) : UserData :=
  if f_type == "S" then { filter_season := some val, filter_episode := none }
  else if f_type == "E" then { ud with filter_episode := some val }
  else ud

/-! ### The backfill: `index_channel_task` (bot.py lines 1081-1227)

The Pyrogram fetch `user_client.get_messages(chat_id, msg_id)` is the external
content source; one call either returns a message or raises.  `FloodWait` is
the rate-limit signal (its string form names `FLOOD_WAIT`, it does not contain
"deleted"); an exception whose string contains "deleted" is counted under the
`deleted` counter by the handler; anything else is a generic error. -/

/-- The outcome of one `get_messages` call, as the loop body distinguishes it. -/
inductive FetchResult where
  | gotMsg (empty_or_service : Bool) (document : Option Media)
      (video : Option Media) (caption : Option String)
  | floodWait (seconds : Nat)
  | deletedError
  | otherError
deriving DecidableEq, Repr

/-- The mutable loop state of `index_channel_task`: the six counters, the
store, and the accumulated `asyncio.sleep(0.1)` delays in tenths of a second
(the only waiting the loop ever performs). -/
structure BfState where
  fetched : Nat
  saved : Nat
  duplicates : Nat
  deleted : Nat
  non_media : Nat
  errors : Nat
  store : Store
  slept_tenths : Nat
deriving DecidableEq, Repr

/-- The `file_doc` dict literal of the backfill path (bot.py lines 1140-1161),
textually the same computation as in the live path. -/
def bf_file_doc (cfg : Config) (pyhash : String → Int) (now : Nat) (chat_id : Int)
    (msg_id : Nat) (fid uid fname : String) (fsize : Nat) (ftype : String) : FileDoc :=
  let clean_name := clean_filename fname
  let category := determine_category cfg chat_id clean_name
  let se := extract_metadata fname
  { _id := compute_file_id pyhash uid
    file_id := fid
    file_unique_id := uid
    file_name := clean_name
    file_size := fsize
    file_type := ftype
    category := category
    season := se.1
    episode := se.2
    quality := extract_quality fname
    audio := extract_audio fname
    message_id := msg_id
    channel_id := chat_id
    indexed_date := now }

/-- The insert of the backfill loop body and the `except` classification it can
trigger (bot.py lines 1163-1170): `insert_one` then `saved += 1`, or, on a
`DuplicateKeyError` (whose string does not contain "deleted"), the generic
`except Exception` clause with `errors += 1`.  The store argument inside `st`
is the store as it stands when `insert_one` runs; under concurrent writers it
may already contain the document's content key even though the earlier dedup
lookup missed. -/
def bf_insert_step (st : BfState) (d : FileDoc) : BfState :=
  match insert_one st.store d with
  | .ok s2 => { st with saved := st.saved + 1, store := s2,
                        slept_tenths := st.slept_tenths + 1 }
  | .error _ => { st with errors := st.errors + 1, slept_tenths := st.slept_tenths + 1 }

/-- One iteration of the backfill loop body (bot.py lines 1107-1203).

Paths that end in `continue` (empty/service, non-media, duplicate) skip the
trailing `await asyncio.sleep(0.1)`; paths that fall through the
`try`/`except` (saved, and every caught exception) reach it.  A `FloodWait`
raised by the fetch, like any other exception without "deleted" in its string
(including a `DuplicateKeyError` from `insert_one`, and the `TypeError` that
`extract_metadata(None)` raises for a document with no file name), lands in
the generic `except Exception` clause and increments `errors`; the loop then
moves on to the next message id. -/
def process_one (cfg : Config) (pyhash : String → Int) (now : Nat) (chat_id : Int)
    (fetch : Nat → FetchResult) (st : BfState) (msg_id : Nat) : BfState :=
  match fetch msg_id with
  | .floodWait _ => { st with errors := st.errors + 1, slept_tenths := st.slept_tenths + 1 }
  | .deletedError => { st with deleted := st.deleted + 1, slept_tenths := st.slept_tenths + 1 }
  | .otherError => { st with errors := st.errors + 1, slept_tenths := st.slept_tenths + 1 }
  | .gotMsg empty_or_service document video caption =>
    let st := { st with fetched := st.fetched + 1 }
    if empty_or_service then { st with non_media := st.non_media + 1 }
    else
      let media? : Option (String × String × Option String × Nat × String) :=
        match document with
        | some d => some (d.file_id, d.file_unique_id, d.file_name, d.file_size, "doc")
        | none =>
          match video with
          | some v => some (v.file_id, v.file_unique_id,
                            some (py_or v.file_name (py_or caption "Video")), v.file_size, "video")
          | none => none
      match media? with
      | none => { st with non_media := st.non_media + 1 }
      | some (fid, uid, fname?, fsize, ftype) =>
        if (files_find_uid st.store uid).isSome then
          { st with duplicates := st.duplicates + 1 }
        else
          match fname? with
          | none => { st with errors := st.errors + 1, slept_tenths := st.slept_tenths + 1 }
          | some fname =>
            bf_insert_step st (bf_file_doc cfg pyhash now chat_id msg_id fid uid fname fsize ftype)

/-- How one backfill run ends.

`completed` carries the six counters of the final summary edit (bot.py lines
1208-1220).  `failed` is the outer `except Exception` path (an unrecoverable
setup error such as `user_client.start()` failing): the "Indexing Failed" edit
carries no counters.  `killed` is what an external `asyncio` cancellation of
the task produces: `CancelledError` derives from `BaseException` (Python 3.8+,
required by the pinned libraries), so neither `except Exception` clause catches
it; the task dies between items, no summary of any kind is edited, and the
accumulated counters are lost.  The discarded `create_task` handle at bot.py
line 1079 is the only reference to the running task. -/
inductive RunResult where
  | completed (fetched saved duplicates deleted non_media errors : Nat)
  | failed
  | killed
deriving DecidableEq, Repr

/-- The `for msg_id in range(skip + 1, last_msg_id + 1)` loop, with an optional
external cancellation delivered at the per-item boundary before fetching
`cancelAt`. -/
def bf_loop (cfg : Config) (pyhash : String → Int) (now : Nat) (chat_id : Int)
    (fetch : Nat → FetchResult) (cancelAt : Option Nat) :
    BfState → List Nat → RunResult × Store
  | st, [] =>
    (.completed st.fetched st.saved st.duplicates st.deleted st.non_media st.errors, st.store)
  | st, i :: rest =>
    if cancelAt == some i then (.killed, st.store)
    else bf_loop cfg pyhash now chat_id fetch cancelAt
      (process_one cfg pyhash now chat_id fetch st i) rest

/-- Embedding of `index_channel_task` (bot.py lines 1081-1227): when the
Pyrogram session cannot be established the outer handler reports failure;
otherwise the loop runs over `range(skip + 1, last_msg_id + 1)` and the final
summary carries the counters.  Progress edits every 50 fetched items are
external best-effort UI with no effect on state and are not modelled. -/
def index_channel_task (cfg : Config) (pyhash : String → Int) (now : Nat)
    (fetch : Nat → FetchResult) (s0 : Store) (chat_id : Int) (last_msg_id skip : Nat)
    (startOk : Bool) (cancelAt : Option Nat) : RunResult × Store :=
  if !startOk then (.failed, s0)
  else
    bf_loop cfg pyhash now chat_id fetch cancelAt
      { fetched := 0, saved := 0, duplicates := 0, deleted := 0, non_media := 0,
        errors := 0, store := s0, slept_tenths := 0 }
      (List.range' (skip + 1) (last_msg_id - skip))

/-! ### Statement-side definitions and concrete fixtures used by the theorems -/

/-- The content key an inbound post carries, if any: `file_unique_id` of its
document, else of its video. -/
def event_key (msg : ChannelPost) : Option String :=
  match msg.document with
  | some d => some d.file_unique_id
  | none => msg.video.map (fun v => v.file_unique_id)

/-- Season as the claim words it: the value of the first (leftmost)
case-insensitive match of the season pattern over the string's suffixes,
default 0. -/
def firstSeasonVal (text : String) : Nat :=
  ((text.toList.tails.filterMap matchSeasonAt).head?).getD 0

/-- Episode as the claim words it: the value of the first (leftmost)
case-insensitive match of the episode pattern over the string's suffixes,
default 0. -/
def firstEpisodeVal (text : String) : Nat :=
  ((text.toList.tails.filterMap matchEpisodeAt).head?).getD 0

/-- A minimal catalog record used by concrete instances. -/
def sampleDoc : FileDoc :=
  { _id := "1", file_id := "f", file_unique_id := "u", file_name := "a", file_size := 1,
    file_type := "doc", category := "Movies", season := 0, episode := 0,
    quality := "Unknown", audio := "Unknown", message_id := 1, channel_id := 3,
    indexed_date := 0 }

/-- A store with 25 records matching the query of the pagination-boundary
instance (`totalCount = 25`). -/
def store25 : Store := List.replicate 25 sampleDoc

/-- A sample channel configuration. -/
def cfg3 : Config := { ch_sinhala_sub := 1, ch_pc_game := 2, ch_movie_series := 3 }

/-- A sample per-run salted hash giving content keys "u1" and "u2" distinct
record ids. -/
def pyhashC3 (s : String) : Int := if s == "u1" then 1 else 2

/-- The all-zero loop state over an empty store. -/
def bfState0 : BfState :=
  { fetched := 0, saved := 0, duplicates := 0, deleted := 0, non_media := 0,
    errors := 0, store := [], slept_tenths := 0 }

/-- The document of backfill message 1. -/
def mediaU1 : Media :=
  { file_id := "f1", file_unique_id := "u1", file_name := some "A", file_size := 5 }

/-- The document of backfill message 3. -/
def mediaU2 : Media :=
  { file_id := "f2", file_unique_id := "u2", file_name := some "B", file_size := 6 }

/-- A three-message backfill source: id 1 and id 3 carry fresh documents, the
fetch of id 2 raises `FloodWait(30)`. -/
def fetchC3 (i : Nat) : FetchResult :=
  if i == 1 then .gotMsg false (some mediaU1) none none
  else if i == 2 then .floodWait 30
  else if i == 3 then .gotMsg false (some mediaU2) none none
  else .otherError

/-- A constant per-run hash, for the conflict fixtures. -/
def pyhash7 (_ : String) : Int := 7

/-- A record with content key "b", already inserted by a racing writer. -/
def docRace : FileDoc := bf_file_doc cfg3 pyhash7 0 3 1 "fa" "b" "A" 5 "doc"

/-- The backfill's own document for the same content key "b": its insert races
into the uniqueness constraint of `docRace`. -/
def docB : FileDoc := bf_file_doc cfg3 pyhash7 0 3 2 "fb" "b" "B" 9 "doc"

/-- The loop state at the moment the racing insert runs: the dedup lookup
already missed, the racing writer's record is in the store. -/
def bfStRace : BfState :=
  { fetched := 1, saved := 0, duplicates := 0, deleted := 0, non_media := 0,
    errors := 0, store := [docRace], slept_tenths := 0 }

/-- The attachment of the fresh live post below. -/
def mediaUA : Media :=
  { file_id := "fA", file_unique_id := "uA", file_name := some "A", file_size := 4 }

/-- A fresh document post from the Movie/Series channel, for the concrete
idempotent-ingestion instance. -/
def msgA : ChannelPost :=
  { chat_id := 3, message_id := 9, document := some mediaUA, video := none, caption := none }

/-! ## Theorems -/

/-! ### C7: season/episode extraction -/

/-- `findFirst` returns the value of the first suffix (in left-to-right
position order) on which the matcher succeeds. -/
theorem findFirst_eq_head_of_tails (m : List Char → Option Nat) (l : List Char) :
    findFirst m l = (l.tails.filterMap m).head? := by
  induction l with
  | nil => cases h : m [] <;> simp [findFirst, h]
  | cons c rest ih => cases h : m (c :: rest) <;> simp [findFirst, h, ih]

/-- C7.  For every input string, `extract_metadata` takes the season from the
first case-insensitive match of `s` or `season` followed by one or two digits
(with one optional whitespace in between, `\s?`), and the episode from the
first case-insensitive match of `e`, `episode` or `ep` followed by one to
three digits, each component defaulting to 0 when its pattern has no match;
in particular "Movie.Title.2020.1080p" yields (0, 0) and "Show S02E07 1080p"
yields (2, 7). -/
theorem C7_extract_metadata_first_match :
    (∀ text : String, extract_metadata text = (firstSeasonVal text, firstEpisodeVal text)) ∧
    extract_metadata "Movie.Title.2020.1080p" = (0, 0) ∧
    extract_metadata "Show S02E07 1080p" = (2, 7) := by
  refine ⟨fun text => ?_, by decide, by decide⟩
  unfold extract_metadata firstSeasonVal firstEpisodeVal
  rw [findFirst_eq_head_of_tails, findFirst_eq_head_of_tails]

/-! ### The sort order of `render_file_list` is a total preorder -/

theorem charListLe_total : ∀ (a b : List Char), charListLe a b = true ∨ charListLe b a = true
  | [], _ => Or.inl rfl
  | _ :: _, [] => Or.inr rfl
  | a :: as, b :: bs => by
    rcases Nat.lt_trichotomy a.toNat b.toNat with h | h | h
    · left; simp [charListLe, Nat.ne_of_lt h, h]
    · rcases charListLe_total as bs with ih | ih
      · left; simp [charListLe, h, ih]
      · right; simp [charListLe, h, ih]
    · right; simp [charListLe, Nat.ne_of_lt h, h]

theorem charListLe_trans : ∀ {a b c : List Char},
    charListLe a b = true → charListLe b c = true → charListLe a c = true
  | [], _, _, _, _ => rfl
  | _ :: _, [], _, h, _ => by simp [charListLe] at h
  | _ :: _, _ :: _, [], _, h => by simp [charListLe] at h
  | a :: as, b :: bs, c :: cs, h1, h2 => by
    unfold charListLe at h1 h2 ⊢
    by_cases e1 : a.toNat = b.toNat
    · rw [if_pos (by simpa using e1)] at h1
      by_cases e2 : b.toNat = c.toNat
      · rw [if_pos (by simpa using e2)] at h2
        rw [if_pos (by simpa using e1.trans e2)]
        exact charListLe_trans h1 h2
      · rw [if_neg (by simpa using e2)] at h2
        have hlt : b.toNat < c.toNat := by simpa using h2
        rw [if_neg (by simpa using show a.toNat ≠ c.toNat by omega)]
        simp only [decide_eq_true_eq]
        omega
    · rw [if_neg (by simpa using e1)] at h1
      have hlt1 : a.toNat < b.toNat := by simpa using h1
      by_cases e2 : b.toNat = c.toNat
      · rw [if_neg (by simpa using show a.toNat ≠ c.toNat by omega)]
        simp only [decide_eq_true_eq]
        omega
      · rw [if_neg (by simpa using e2)] at h2
        have hlt2 : b.toNat < c.toNat := by simpa using h2
        rw [if_neg (by simpa using show a.toNat ≠ c.toNat by omega)]
        simp only [decide_eq_true_eq]
        omega

/-- Unfolded form of the compound sort key. -/
theorem docLe_iff (a b : FileDoc) : docLe a b = true ↔
    (a.season < b.season ∨ (a.season = b.season ∧ (a.episode < b.episode ∨
      (a.episode = b.episode ∧
        charListLe a.file_name.toList b.file_name.toList = true)))) := by
  unfold docLe
  by_cases h1 : a.season = b.season <;> by_cases h2 : a.episode = b.episode <;>
    simp [h1, h2] <;> try omega

instance : IsTotal FileDoc docR :=
  ⟨fun a b => by
    unfold docR
    rw [docLe_iff, docLe_iff]
    rcases Nat.lt_trichotomy a.season b.season with h | h | h
    · exact Or.inl (Or.inl h)
    · rcases Nat.lt_trichotomy a.episode b.episode with h' | h' | h'
      · exact Or.inl (Or.inr ⟨h, Or.inl h'⟩)
      · rcases charListLe_total a.file_name.toList b.file_name.toList with hc | hc
        · exact Or.inl (Or.inr ⟨h, Or.inr ⟨h', hc⟩⟩)
        · exact Or.inr (Or.inr ⟨h.symm, Or.inr ⟨h'.symm, hc⟩⟩)
      · exact Or.inr (Or.inr ⟨h.symm, Or.inl h'⟩)
    · exact Or.inr (Or.inl h)⟩

instance : IsTrans FileDoc docR :=
  ⟨fun a b c hab hbc => by
    unfold docR at *
    rw [docLe_iff] at hab hbc ⊢
    rcases hab with h | ⟨hs, h⟩ <;> rcases hbc with h' | ⟨hs', h'⟩
    · exact Or.inl (Nat.lt_trans h h')
    · exact Or.inl (hs' ▸ h)
    · exact Or.inl (hs ▸ h')
    · rcases h with he | ⟨he, hn⟩ <;> rcases h' with he' | ⟨he', hn'⟩
      · exact Or.inr ⟨hs.trans hs', Or.inl (Nat.lt_trans he he')⟩
      · exact Or.inr ⟨hs.trans hs', Or.inl (he' ▸ he)⟩
      · exact Or.inr ⟨hs.trans hs', Or.inl (he ▸ he')⟩
      · exact Or.inr ⟨hs.trans hs', Or.inr ⟨he.trans he', charListLe_trans hn hn'⟩⟩⟩

/-! ### C6: pagination and sort of the file list -/

/-- C6.  Every `render_file_list` call (page size 10) returns a page that is a
contiguous slice, at offset `page * 10`, of a sorted-by-(season, episode,
file_name) permutation of the matching records; the page itself is sorted in
that order; the total is the number of matching records; a previous page is
offered iff `page > 0` and a next page iff `page * 10 + 10 < total`.  With 25
matching records and `page = 2`, the page holds 5 records, a previous page is
offered, and no next page is. -/
theorem C6_render_file_list_pagination :
    (∀ (s : Store) (category query_text : String) (sf ef : Option Nat) (page : Nat),
      ∃ all : List FileDoc,
        all.Perm (s.filter (match_query query_text category sf ef)) ∧
        all.Sorted docR ∧
        (render_file_list s category query_text sf ef page).files =
          (all.drop (page * 10)).take 10 ∧
        (render_file_list s category query_text sf ef page).files.Sorted docR ∧
        (render_file_list s category query_text sf ef page).total =
          (s.filter (match_query query_text category sf ef)).length ∧
        (render_file_list s category query_text sf ef page).has_prev = decide (0 < page) ∧
        (render_file_list s category query_text sf ef page).has_next =
          decide (page * 10 + 10 <
            (render_file_list s category query_text sf ef page).total)) ∧
    (render_file_list store25 "Movies" "" none none 2).files.length = 5 ∧
    (render_file_list store25 "Movies" "" none none 2).total = 25 ∧
    (render_file_list store25 "Movies" "" none none 2).has_prev = true ∧
    (render_file_list store25 "Movies" "" none none 2).has_next = false := by
  constructor
  · intro s category query_text sf ef page
    refine ⟨(s.filter (match_query query_text category sf ef)).insertionSort docR,
      List.perm_insertionSort docR _, List.sorted_insertionSort docR _, rfl, ?_, rfl, rfl, rfl⟩
    exact (List.sorted_insertionSort docR _).sublist
      ((List.take_sublist _ _).trans (List.drop_sublist _ _))
  · refine ⟨by decide, by decide, by decide, by decide⟩

/-! ### C9: zero-valued season/episode and the facets -/

/-- C9.  The facet enumeration offers only values strictly greater than 0:
the list is sorted ascending, has no repeats, every value in it is positive
(in particular 0 is never offered), and a value is in it exactly when some
matching Series record carries it positively; and the page query never
applies a season or episode equality filter whose value is 0 (a zero filter
value behaves exactly like no filter). -/
theorem C9_zero_values_never_faceted :
    (∀ (s : Store) (ft q : String), (facet_values s ft q).Sorted (· ≤ ·)) ∧
    (∀ (s : Store) (ft q : String), (facet_values s ft q).Nodup) ∧
    (∀ (s : Store) (ft q : String),
      (facet_values s ft q).all (fun v => decide (0 < v)) = true) ∧
    (∀ (s : Store) (ft q : String), 0 ∉ facet_values s ft q) ∧
    (∀ (s : Store) (ft q : String) (v : Nat),
      v ∈ facet_values s ft q ↔
        ∃ f ∈ s, nameMatches q f.file_name = true ∧ f.category = "Series" ∧
          0 < (if ft == "Season" then f.season else f.episode) ∧
          (if ft == "Season" then f.season else f.episode) = v) ∧
    (∀ (q : String) (ef : Option Nat) (f : FileDoc),
      match_query q "Series" (some 0) ef f = match_query q "Series" none ef f) ∧
    (∀ (q : String) (sf : Option Nat) (f : FileDoc),
      match_query q "Series" sf (some 0) f = match_query q "Series" sf none f) := by
  have hmem : ∀ (s : Store) (ft q : String) (v : Nat),
      v ∈ facet_values s ft q ↔
        ∃ f ∈ s, nameMatches q f.file_name = true ∧ f.category = "Series" ∧
          0 < (if ft == "Season" then f.season else f.episode) ∧
          (if ft == "Season" then f.season else f.episode) = v := by
    intro s ft q v
    unfold facet_values
    rw [(List.perm_insertionSort _ _).mem_iff, List.mem_dedup, List.mem_map]
    constructor
    · rintro ⟨f, hf, hv⟩
      rw [List.mem_filter] at hf
      obtain ⟨hfs, hcond⟩ := hf
      simp only [Bool.and_eq_true, beq_iff_eq, decide_eq_true_eq] at hcond
      exact ⟨f, hfs, hcond.1.1, hcond.1.2, by split <;> simp_all, by split <;> simp_all⟩
    · rintro ⟨f, hfs, hnm, hcat, hpos, hval⟩
      refine ⟨f, List.mem_filter.mpr ⟨hfs, ?_⟩, by split <;> simp_all⟩
      simp only [Bool.and_eq_true, beq_iff_eq, decide_eq_true_eq]
      exact ⟨⟨hnm, hcat⟩, by split <;> simp_all⟩
  refine ⟨?_, ?_, ?_, ?_, hmem, ?_, ?_⟩
  · intro s ft q
    exact List.sorted_insertionSort _ _
  · intro s ft q
    exact ((List.perm_insertionSort _ _).nodup_iff).mpr (List.nodup_dedup _)
  · intro s ft q
    rw [List.all_eq_true]
    intro v hv
    rw [hmem] at hv
    obtain ⟨f, _, _, _, hpos, hval⟩ := hv
    simp only [decide_eq_true_eq]
    exact hval ▸ hpos
  · intro s ft q h
    rw [hmem] at h
    obtain ⟨f, _, _, _, hpos, hval⟩ := h
    omega
  · intro q ef f
    rfl
  · intro q sf f
    simp [match_query, truthyNat]

/-! ### C8: facet selection and the episode reset -/

/-- C8.  Selecting a season facet value sets the session's season filter to
that value and always resets the episode filter to `None`; selecting an
episode value changes only the episode filter; hence after choosing season 2
with episode 7 previously selected, the Series page query matches on
`season = 2` and applies no episode condition. -/
theorem C8_season_selection_resets_episode :
    (∀ (ud : UserData) (v : Nat),
      ser_sel ud "S" v = { filter_season := some v, filter_episode := none }) ∧
    (∀ (ud : UserData) (v : Nat),
      ser_sel ud "E" v = { ud with filter_episode := some v }) ∧
    ser_sel { filter_season := none, filter_episode := some 7 } "S" 2 =
      { filter_season := some 2, filter_episode := none } ∧
    (∀ (q : String) (f : FileDoc),
      match_query q "Series" (some 2) none f =
        (nameMatches q f.file_name && f.category == "Series" && f.season == 2)) := by
  refine ⟨fun ud v => rfl, fun ud v => rfl, rfl, fun q f => ?_⟩
  simp [match_query, truthyNat]

/-! ### C10: the live handler's frame -/

/-- A post from one of the three configured channels is never classified
"Others". -/
theorem determine_category_ne_others (cfg : Config) (chat : Int) (name : String)
    (h : chat = cfg.ch_sinhala_sub ∨ chat = cfg.ch_pc_game ∨ chat = cfg.ch_movie_series) :
    determine_category cfg chat name ≠ "Others" := by
  unfold determine_category
  by_cases h1 : (chat == cfg.ch_pc_game) = true
  · simp [h1]
  · by_cases h2 : (chat == cfg.ch_sinhala_sub) = true
    · simp [h1, h2]
    · by_cases h3 : (chat == cfg.ch_movie_series) = true
      · simp only [h1, h2, h3, Bool.false_eq_true, if_false, if_true]
        split <;> simp
      · simp only [beq_iff_eq] at h1 h2 h3
        tauto

/-- `live_insert_step` either swallows a duplicate-key conflict, leaving the
store unchanged, or appends exactly the one new record. -/
theorem live_insert_step_cases (s : Store) (d : FileDoc) :
    live_insert_step s d = (.conflictSwallowed, s) ∨
    live_insert_step s d = (.inserted, s ++ [d]) := by
  unfold live_insert_step insert_one
  by_cases h : (s.any fun r => r.file_unique_id == d.file_unique_id || r._id == d._id) = true
  · rw [if_pos h]
    exact Or.inl rfl
  · rw [if_neg h]
    exact Or.inr rfl

/-- C10.  One live-handler call either leaves the store completely unchanged —
as it does for every post from a non-configured channel and for every post
carrying neither document nor video — or appends exactly one record, and in
that case the post came from one of the three configured source channels,
carried a document or a video, and the appended record's category is not
"Others". -/
theorem C10_live_writes_only_configured_media (cfg : Config) (pyhash : String → Int)
    (now : Nat) (s : Store) (msg : ChannelPost) :
    (channel_post_handler cfg pyhash now s msg).2 = s ∨
    ∃ d : FileDoc,
      (channel_post_handler cfg pyhash now s msg).2 = s ++ [d] ∧
      (msg.chat_id = cfg.ch_sinhala_sub ∨ msg.chat_id = cfg.ch_pc_game ∨
        msg.chat_id = cfg.ch_movie_series) ∧
      (msg.document.isSome ∨ msg.video.isSome) ∧
      d.category ≠ "Others" := by
  unfold channel_post_handler
  by_cases hc : (msg.chat_id == cfg.ch_sinhala_sub || msg.chat_id == cfg.ch_pc_game ||
      msg.chat_id == cfg.ch_movie_series) = true
  · have hchan : msg.chat_id = cfg.ch_sinhala_sub ∨ msg.chat_id = cfg.ch_pc_game ∨
        msg.chat_id = cfg.ch_movie_series := by
      simpa [or_assoc] using hc
    simp only [hc, Bool.not_true, Bool.false_eq_true, if_false]
    rcases hdoc : msg.document with _ | d
    · rcases hvid : msg.video with _ | v
      · exact Or.inl rfl
      · simp only []
        by_cases hdup : (files_find_uid s v.file_unique_id).isSome = true
        · simp [hdup]
        · simp only [Bool.not_eq_true] at hdup
          simp only [hdup, Bool.false_eq_true, if_false]
          rcases live_insert_step_cases s
              (live_file_doc cfg pyhash now msg.chat_id msg.message_id v.file_id
                v.file_unique_id (py_or v.file_name (py_or msg.caption "Video"))
                v.file_size "video") with h | h
          · rw [h]
            exact Or.inl rfl
          · rw [h]
            refine Or.inr ⟨_, rfl, hchan, Or.inr (by simp), ?_⟩
            exact determine_category_ne_others cfg msg.chat_id _ hchan
    · by_cases hdup : (files_find_uid s d.file_unique_id).isSome = true
      · simp [hdup]
      · simp only [Bool.not_eq_true] at hdup
        simp only [hdup, Bool.false_eq_true, if_false]
        rcases live_insert_step_cases s
            (live_file_doc cfg pyhash now msg.chat_id msg.message_id d.file_id
              d.file_unique_id (py_or d.file_name "Document") d.file_size "doc") with h | h
        · rw [h]
          exact Or.inl rfl
        · rw [h]
          refine Or.inr ⟨_, rfl, hchan, Or.inl (by simp), ?_⟩
          exact determine_category_ne_others cfg msg.chat_id _ hchan
  · simp only [Bool.not_eq_true] at hc
    simp [hc]

/-! ### C2: the record id derivation -/

/-- C2 counterexample.  The id expression `str(hash(unique_id))[:16]` is not
stable across process runs: Python's built-in string hash is salted per
process (hash randomization, on by default), so two runs are two different
`pyhash` functions, and already the runs hashing "u" to 0 and to 1 derive
different id strings for the same content key. -/
theorem C2_cex_id_differs_across_runs :
    compute_file_id (fun _ => (0 : Int)) "u" ≠ compute_file_id (fun _ => (1 : Int)) "u" := by
  decide

/-- C2 as amended.  Within one process run (one value of the salted built-in
hash), the record id is a function of the content key alone — the two
ingestion paths build it identically, and no other field of the event
influences it. -/
theorem C2_amended_id_deterministic_within_run (pyhash : String → Int)
    (cfg cfg2 : Config) (now now2 : Nat) (chat chat2 : Int) (mid mid2 : Nat)
    (fid fid2 uid fn fn2 : String) (fs fs2 : Nat) (ft ft2 : String) :
    (live_file_doc cfg pyhash now chat mid fid uid fn fs ft)._id =
      (bf_file_doc cfg2 pyhash now2 chat2 mid2 fid2 uid fn2 fs2 ft2)._id ∧
    (live_file_doc cfg pyhash now chat mid fid uid fn fs ft)._id =
      compute_file_id pyhash uid :=
  ⟨rfl, rfl⟩

/-! ### C3: rate-limit handling in the backfill -/

/-- C3 counterexample.  In a three-message backfill whose second fetch raises
`FloodWait(30)`, the run completes with `errors = 1` and `saved = 2`: the
rate-limited id is counted as an error and skipped — it is not waited for and
not re-attempted, contradicting the claim that such an item is retried and
never counted as an error. -/
theorem C3_cex_ratelimited_item_counted_as_error :
    (index_channel_task cfg3 pyhashC3 0 fetchC3 [] 3 3 0 true none).1 =
      .completed 2 2 0 0 0 1 := by
  decide

/-- C3 as amended.  A rate-limit signal from the fetch is caught by the
generic per-item handler: the errors counter is incremented, nothing else
changes (no record is written, no duplicate is counted, the mandated wait is
not performed — only the fixed 0.1 s inter-item delay runs), and the loop
moves on to the next id; the item is not re-attempted. -/
theorem C3_amended_ratelimit_is_generic_error (cfg : Config) (pyhash : String → Int)
    (now : Nat) (chat : Int) (fetch : Nat → FetchResult) (st : BfState) (i w : Nat)
    (h : fetch i = .floodWait w) :
    process_one cfg pyhash now chat fetch st i =
      { st with errors := st.errors + 1, slept_tenths := st.slept_tenths + 1 } := by
  unfold process_one
  rw [h]

/-- Witness for C3's amended theorem: the `FloodWait(30)` fetch of message 2
turns the all-zero state into one error and one 0.1 s delay. -/
theorem C3_amended_witness :
    process_one cfg3 pyhashC3 0 3 fetchC3 bfState0 2 =
      { bfState0 with errors := 1, slept_tenths := 1 } :=
  C3_amended_ratelimit_is_generic_error cfg3 pyhashC3 0 3 fetchC3 bfState0 2 30 rfl

/-! ### C4: duplicate-key conflicts from insert -/

/-- C4 counterexample.  A backfill insert that races into the uniqueness
constraint on the content key — the dedup lookup missed, a racing writer's
record for content key "b" is in the store when `insert_one` runs — is
counted under `errors`, not under `duplicates`. -/
theorem C4_cex_backfill_conflict_counted_as_error :
    (bf_insert_step bfStRace docB).errors = 1 ∧
    (bf_insert_step bfStRace docB).duplicates = 0 ∧
    (bf_insert_step bfStRace docB).saved = 0 ∧
    (bf_insert_step bfStRace docB).store = [docRace] := by
  refine ⟨?_, ?_, ?_, ?_⟩ <;> decide

/-- C4 as amended.  A duplicate-key conflict from `insert_one` never aborts
either path: the live handler swallows it with no error and no store change;
the backfill loop catches it in the generic per-item handler and increments
the errors counter — not the duplicates counter, which counts only pre-insert
lookup hits — and continues. -/
theorem C4_amended_conflict_swallowed_or_counted_error :
    (∀ (s : Store) (d : FileDoc), insert_one s d = .error () →
      live_insert_step s d = (.conflictSwallowed, s)) ∧
    (∀ (st : BfState) (d : FileDoc), insert_one st.store d = .error () →
      bf_insert_step st d =
        { st with errors := st.errors + 1, slept_tenths := st.slept_tenths + 1 }) := by
  constructor
  · intro s d h
    unfold live_insert_step
    rw [h]
  · intro st d h
    unfold bf_insert_step
    rw [h]

/-- Witness for C4's amended theorem, at the racing fixture: the live path
swallows the conflict and the backfill path counts it as an error. -/
theorem C4_amended_witness :
    live_insert_step [docRace] docB = (.conflictSwallowed, [docRace]) ∧
    bf_insert_step bfStRace docB =
      { bfStRace with errors := 1, slept_tenths := 1 } :=
  ⟨C4_amended_conflict_swallowed_or_counted_error.1 [docRace] docB (by rfl),
   C4_amended_conflict_swallowed_or_counted_error.2 bfStRace docB (by rfl)⟩

/-! ### C5: cancellation of a running backfill -/

/-- C5 counterexample.  Cancelling the concrete three-message run at the
boundary before item 2 yields the `killed` outcome: no `Cancelled` terminal
report exists, and no summary carrying the accumulated counters is emitted
(the counters are lost with the task). -/
theorem C5_cex_cancel_emits_no_summary :
    (index_channel_task cfg3 pyhashC3 0 fetchC3 [] 3 3 0 true (some 2)).1 = .killed := by
  decide

/-- Cancellation delivered at an id inside the remaining range kills the loop
before any summary. -/
theorem bf_loop_killed (cfg : Config) (pyhash : String → Int) (now : Nat)
    (chat : Int) (fetch : Nat → FetchResult) (i : Nat) :
    ∀ (n start : Nat) (st : BfState), start ≤ i → i < start + n →
      (bf_loop cfg pyhash now chat fetch (some i) st (List.range' start n)).1 = .killed := by
  intro n
  induction n with
  | zero => intro start st h1 h2; omega
  | succ m ih =>
    intro start st h1 h2
    rw [List.range'_succ]
    unfold bf_loop
    by_cases he : start = i
    · subst he
      simp
    · have : (some i == some start) = false := by
        simp only [Option.some.injEq, beq_eq_false_iff_ne, ne_eq]
        omega
      rw [this]
      simp only [Bool.false_eq_true, if_false]
      exact ih (start + 1) _ (by omega) (by omega)

/-- C5 as amended.  The coordinator offers no cancellation interface and has
no `Cancelled` terminal state: the spawned task's handle is discarded, and an
external `asyncio` cancellation delivered at any per-item boundary of the
running range raises `CancelledError` past both `except Exception` clauses,
so the task dies emitting no terminal report at all — the run ends neither
`Completed` nor `Failed`, and the counters accumulated so far are discarded,
not reported. -/
theorem C5_amended_cancellation_kills_run (cfg : Config) (pyhash : String → Int)
    (now : Nat) (fetch : Nat → FetchResult) (s0 : Store) (chat : Int)
    (last skip i : Nat) (h1 : skip < i) (h2 : i ≤ last) :
    (index_channel_task cfg pyhash now fetch s0 chat last skip true (some i)).1 =
      .killed := by
  unfold index_channel_task
  simp only [Bool.not_true, Bool.false_eq_true, if_false]
  exact bf_loop_killed cfg pyhash now chat fetch i (last - skip) (skip + 1) _
    (by omega) (by omega)

/-- Witness for C5's amended theorem: cancelling the concrete run at item 3. -/
theorem C5_amended_witness :
    (index_channel_task cfg3 pyhashC3 0 fetchC3 [] 3 3 0 true (some 3)).1 = .killed :=
  C5_amended_cancellation_kills_run cfg3 pyhashC3 0 fetchC3 [] 3 3 0 3
    (by decide) (by decide)

/-! ### C1: idempotent ingestion -/

/-- Inserting a record whose keys are fresh for both unique indexes succeeds
and appends it. -/
theorem insert_one_fresh (s : Store) (d : FileDoc)
    (h1 : ∀ r ∈ s, r.file_unique_id ≠ d.file_unique_id)
    (h2 : ∀ r ∈ s, r._id ≠ d._id) : insert_one s d = .ok (s ++ [d]) := by
  unfold insert_one
  rw [if_neg]
  intro hcontra
  rw [List.any_eq_true] at hcontra
  obtain ⟨r, hr, hpr⟩ := hcontra
  have hpr2 : r.file_unique_id = d.file_unique_id ∨ r._id = d._id := by simpa using hpr
  rcases hpr2 with hh | hh
  · exact h1 r hr hh
  · exact h2 r hr hh

/-- A live-handler call on a media post from a configured channel whose
content key is fresh (and whose derived id is fresh) inserts exactly one
record carrying that content key and that id. -/
theorem handler_fresh_inserts (cfg : Config) (pyhash : String → Int) (now : Nat)
    (s : Store) (msg : ChannelPost) (uid : String)
    (hchan : msg.chat_id = cfg.ch_sinhala_sub ∨ msg.chat_id = cfg.ch_pc_game ∨
      msg.chat_id = cfg.ch_movie_series)
    (hkey : event_key msg = some uid)
    (hfresh : ∀ r ∈ s, r.file_unique_id ≠ uid)
    (hid : ∀ r ∈ s, r._id ≠ compute_file_id pyhash uid) :
    ∃ d : FileDoc,
      channel_post_handler cfg pyhash now s msg = (.inserted, s ++ [d]) ∧
      d.file_unique_id = uid ∧ d._id = compute_file_id pyhash uid := by
  have hc : (msg.chat_id == cfg.ch_sinhala_sub || msg.chat_id == cfg.ch_pc_game ||
      msg.chat_id == cfg.ch_movie_series) = true := by
    rcases hchan with h | h | h <;> simp [h]
  have hnone : files_find_uid s uid = none := by
    unfold files_find_uid
    rw [List.find?_eq_none]
    intro r hr
    simpa using hfresh r hr
  unfold channel_post_handler
  simp only [hc, Bool.not_true, Bool.false_eq_true, if_false]
  rcases hdoc : msg.document with _ | d0
  · rcases hvid : msg.video with _ | v
    · simp [event_key, hdoc, hvid] at hkey
    · have huid : v.file_unique_id = uid := by
        simpa [event_key, hdoc, hvid] using hkey
      simp only [hdoc, hvid, huid, hnone, Option.isSome_none, Bool.false_eq_true, if_false]
      refine ⟨live_file_doc cfg pyhash now msg.chat_id msg.message_id v.file_id uid
        (py_or v.file_name (py_or msg.caption "Video")) v.file_size "video", ?_, rfl, rfl⟩
      unfold live_insert_step
      rw [insert_one_fresh s _ (fun r hr => by simpa using hfresh r hr)
        (fun r hr => by simpa using hid r hr)]
  · have huid : d0.file_unique_id = uid := by
      simpa [event_key, hdoc] using hkey
    simp only [hdoc, huid, hnone, Option.isSome_none, Bool.false_eq_true, if_false]
    refine ⟨live_file_doc cfg pyhash now msg.chat_id msg.message_id d0.file_id uid
      (py_or d0.file_name "Document") d0.file_size "doc", ?_, rfl, rfl⟩
    unfold live_insert_step
    rw [insert_one_fresh s _ (fun r hr => by simpa using hfresh r hr)
      (fun r hr => by simpa using hid r hr)]

/-- A live-handler call on a media post from a configured channel whose
content key is already in the store returns without writing. -/
theorem handler_dup_no_write (cfg : Config) (pyhash : String → Int) (now : Nat)
    (s : Store) (msg : ChannelPost) (uid : String) (r0 : FileDoc)
    (hchan : msg.chat_id = cfg.ch_sinhala_sub ∨ msg.chat_id = cfg.ch_pc_game ∨
      msg.chat_id = cfg.ch_movie_series)
    (hkey : event_key msg = some uid)
    (hr0 : r0 ∈ s) (hr0uid : r0.file_unique_id = uid) :
    channel_post_handler cfg pyhash now s msg = (.duplicate, s) := by
  have hc : (msg.chat_id == cfg.ch_sinhala_sub || msg.chat_id == cfg.ch_pc_game ||
      msg.chat_id == cfg.ch_movie_series) = true := by
    rcases hchan with h | h | h <;> simp [h]
  have hsome : (files_find_uid s uid).isSome = true := by
    unfold files_find_uid
    rw [List.find?_isSome]
    exact ⟨r0, hr0, by simp [hr0uid]⟩
  unfold channel_post_handler
  simp only [hc, Bool.not_true, Bool.false_eq_true, if_false]
  rcases hdoc : msg.document with _ | d0
  · rcases hvid : msg.video with _ | v
    · simp [event_key, hdoc, hvid] at hkey
    · have huid : v.file_unique_id = uid := by
        simpa [event_key, hdoc, hvid] using hkey
      simp only [hdoc, hvid, huid, hsome, if_true]
  · have huid : d0.file_unique_id = uid := by
      simpa [event_key, hdoc] using hkey
    simp only [hdoc, huid, hsome, if_true]

/-- C1.  Ingesting a media event `e` (a post from a configured source channel
carrying a content key) twice, with no interleaving writes, starting from a
store that holds no record with `e`'s content key (nor any record colliding
with its derived id), yields Inserted on the first call and Duplicate on the
second; the second call performs no store write, and afterwards the store
holds exactly one record whose content key equals `e`'s. -/
theorem C1_ingest_twice_inserted_then_duplicate (cfg : Config)
    (pyhash : String → Int) (now now2 : Nat) (s : Store) (msg : ChannelPost)
    (uid : String)
    (hchan : msg.chat_id = cfg.ch_sinhala_sub ∨ msg.chat_id = cfg.ch_pc_game ∨
      msg.chat_id = cfg.ch_movie_series)
    (hkey : event_key msg = some uid)
    (hfresh : ∀ r ∈ s, r.file_unique_id ≠ uid)
    (hid : ∀ r ∈ s, r._id ≠ compute_file_id pyhash uid) :
    (channel_post_handler cfg pyhash now s msg).1 = .inserted ∧
    (channel_post_handler cfg pyhash now2
        (channel_post_handler cfg pyhash now s msg).2 msg).1 = .duplicate ∧
    (channel_post_handler cfg pyhash now2
        (channel_post_handler cfg pyhash now s msg).2 msg).2 =
      (channel_post_handler cfg pyhash now s msg).2 ∧
    ((channel_post_handler cfg pyhash now s msg).2.filter
        (fun r => r.file_unique_id == uid)).length = 1 := by
  obtain ⟨d, hrun, hduid, _⟩ :=
    handler_fresh_inserts cfg pyhash now s msg uid hchan hkey hfresh hid
  have hdup := handler_dup_no_write cfg pyhash now2 (s ++ [d]) msg uid d hchan hkey
    (List.mem_append_right s (List.mem_singleton_self d)) hduid
  refine ⟨by rw [hrun], ?_, ?_, ?_⟩
  · rw [hrun]
    rw [hdup]
  · rw [hrun]
    rw [hdup]
  · rw [hrun]
    have hfs : s.filter (fun r => r.file_unique_id == uid) = [] := by
      rw [List.filter_eq_nil_iff]
      intro r hr
      simpa using hfresh r hr
    simp [List.filter_append, hfs, hduid]

/-- Witness for C1: a fresh document post from the Movie/Series channel
against the empty store. -/
theorem C1_witness :
    (channel_post_handler cfg3 pyhashC3 0 [] msgA).1 = .inserted ∧
    (channel_post_handler cfg3 pyhashC3 1
        (channel_post_handler cfg3 pyhashC3 0 [] msgA).2 msgA).1 = .duplicate ∧
    (channel_post_handler cfg3 pyhashC3 1
        (channel_post_handler cfg3 pyhashC3 0 [] msgA).2 msgA).2 =
      (channel_post_handler cfg3 pyhashC3 0 [] msgA).2 ∧
    ((channel_post_handler cfg3 pyhashC3 0 [] msgA).2.filter
        (fun r => r.file_unique_id == "uA")).length = 1 :=
  C1_ingest_twice_inserted_then_duplicate cfg3 pyhashC3 0 1 [] msgA "uA"
    (Or.inr (Or.inr rfl)) rfl (by simp) (by simp)
